import Mathlib

/-!
Shallow embedding of `trollop/lib.py`, a lazy client-side object model over
the Trello REST API.  The HTTP transport (`urlfetch.fetch`) is modelled as a
pure function from requests to responses; JSON parsing (`json.loads`) is out
of scope per the library boundary, so response bodies are carried as already
structured JSON values.  Stateful Python objects become explicit state
passing: every operation returns its result together with the updated state
and the list of transport requests it issued, so that fetch counts and cache
behaviour are provable.
-/

namespace Trollop

/-- A JSON value, as produced by `json.loads`.  JSON numbers are modelled as
integers (the fields of this API are ids, counts and flags; no floats are
decoded by the library). -/
inductive Jval where
  | jnull : Jval
  | jbool : Bool → Jval
  | jnum : Int → Jval
  | jstr : String → Jval
  | jarr : List Jval → Jval
  | jobj : List (String × Jval) → Jval

/-- Python truthiness of a JSON value (`if data:`, `bool(raw)`). -/
def pyTruthy : Jval → Bool
  | .jnull => false
  | .jbool b => b
  | .jnum n => n != 0
  | .jstr s => !s.isEmpty
  | .jarr xs => !xs.isEmpty
  | .jobj m => !m.isEmpty

/-- First-match lookup in an association list with string keys
(Python `dict` subscript on well-formed dicts). -/
def dlookup : List (String × Jval) → String → Option Jval
  | [], _ => none
  | (k, v) :: rest, key => if k = key then some v else dlookup rest key

/-- The source's `d[key]` on a JSON value: only objects are subscriptable by a string key. -/
def jsubscript (d : Jval) (key : String) : Option Jval :=
  match d with
  | .jobj m => dlookup m key
  | _ => none

/-- Python `str.startswith(pre)` (Python 2 byte strings; prefix test on the
character sequence). -/
def strStartsWith (s pre : String) : Bool := pre.data.isPrefixOf s.data

/-- Python 2 `str.lower()` on one character: only ASCII letters fold. -/
def pyCharLower (c : Char) : Char :=
  if 'A' ≤ c ∧ c ≤ 'Z' then Char.ofNat (c.toNat + 32) else c

/-- Python 2 `str.lower()`. -/
def pyLower (s : String) : String := String.mk (s.data.map pyCharLower)

/-- Strip leading and trailing whitespace (`int()` tolerates it). -/
def stripWs (cs : List Char) : List Char :=
  ((cs.dropWhile (·.isWhitespace)).reverse.dropWhile (·.isWhitespace)).reverse

/-- Accumulate a decimal literal; any non-digit fails. -/
def pyDigitsAux : List Char → Nat → Option Nat
  | [], acc => some acc
  | c :: rest, acc =>
      if c.isDigit then pyDigitsAux rest (acc * 10 + (c.toNat - 48)) else none

/-- Python `int(str)` on a decimal literal with optional sign and
surrounding whitespace; anything else raises (`none`). -/
def pyStrToInt (s : String) : Option Int :=
  match stripWs s.data with
  | [] => none
  | '-' :: rest => if rest.isEmpty then none else (pyDigitsAux rest 0).map (fun n => -(n : Int))
  | '+' :: rest => if rest.isEmpty then none else (pyDigitsAux rest 0).map Int.ofNat
  | cs => (pyDigitsAux cs 0).map Int.ofNat

/-- HTTP method, as passed to `urlfetch.fetch`. -/
inductive HMethod where
  | GET | POST | PUT | DELETE
deriving DecidableEq

/-- First-match lookup in a string-valued parameter dict. -/
def plookup : List (String × String) → String → Option String
  | [], _ => none
  | (k, v) :: rest, key => if k = key then some v else plookup rest key

/-- The source's `params[k] = v` on a Python dict modelled as an association list with
unique keys: replace the first binding of `k` if present, else append. -/
def pinsert : List (String × String) → String → String → List (String × String)
  | [], k, v => [(k, v)]
  | (k', v') :: rest, k, v =>
      if k' = k then (k, v) :: rest else (k', v') :: pinsert rest k v

/-- An outgoing transport request.  The source builds a URL string
`base + path + urlencode(params)`; we keep the path and the query
parameters structured (url-encoding is the out-of-scope `urlencode`). -/
structure Request where
  method : HMethod
  path : String
  params : List (String × String)
deriving DecidableEq

/-- A transport response: `urlfetch.fetch` yields a status code and a body
(the body carried as its parsed JSON value, see module docstring). -/
structure FetchResult where
  statusCode : Int
  content : Jval

/-- The transport collaborator: one call, one response. -/
def Fetch : Type := Request → FetchResult

/-- The exception raised by `TrelloConnection.request` on a non-200
response, carrying the status code and the response body. -/
structure RemoteError where
  statusCode : Int
  body : Jval

/-- The source's `TrelloConnection`: holds the credential pair. -/
structure Conn where
  key : String
  token : String
deriving DecidableEq

/-- The request `TrelloConnection.request` builds: prefix the path with `/`
if missing, then merge the credentials into the caller's params
(`params.update({'key': .., 'token': ..})`, which overrides caller-supplied
values for those keys). -/
def builtRequest (conn : Conn) (method : HMethod) (path : String)
    (params : Option (List (String × String))) : Request :=
  let path := if strStartsWith path "/" then path else "/" ++ path
  let params := params.getD []
  let params := pinsert (pinsert params "key" conn.key) "token" conn.token
  { method := method, path := path, params := params }

/-- The source's `TrelloConnection.request(method, path, params, body, filename)`.
The `body` and `filename` parameters are accepted but never used by the
source (file upload support was removed).  Performs exactly one transport
call and raises on any status other than 200, else returns the raw body. -/
def trelloRequest (conn : Conn) (fetch : Fetch) (method : HMethod) (path : String)
    (params : Option (List (String × String)))
    (body filename : Option Jval) :
    Except RemoteError Jval × List Request :=
  let _ := body
  let _ := filename
  let req := builtRequest conn method path params
  let res := fetch req
  if res.statusCode ≠ 200 then
    (Except.error ⟨res.statusCode, res.content⟩, [req])
  else
    (Except.ok res.content, [req])

/-- The source's `TrelloConnection.get`. -/
def connGet (conn : Conn) (fetch : Fetch) (path : String)
    (params : Option (List (String × String))) :
    Except RemoteError Jval × List Request :=
  trelloRequest conn fetch .GET path params none none

/-- The source's `TrelloConnection.post`. -/
def connPost (conn : Conn) (fetch : Fetch) (path : String)
    (params : Option (List (String × String))) (body : Option Jval) :
    Except RemoteError Jval × List Request :=
  trelloRequest conn fetch .POST path params body none

/-- The source's `TrelloConnection.put`. -/
def connPut (conn : Conn) (fetch : Fetch) (path : String)
    (params : Option (List (String × String))) (body : Option Jval) :
    Except RemoteError Jval × List Request :=
  trelloRequest conn fetch .PUT path params body none

/-- The source's `TrelloConnection.delete`. -/
def connDelete (conn : Conn) (fetch : Fetch) (path : String)
    (params : Option (List (String × String))) (body : Option Jval) :
    Except RemoteError Jval × List Request :=
  trelloRequest conn fetch .DELETE path params body none

/-- Errors surfacing from entity operations: a propagated `RemoteError`, a
`KeyError`/`TypeError` on subscripting the data mapping, a `TypeError` from
using a non-string value where a string id is required, a decode failure
(`int()` / date parse), or the `ValueError` raised for an invalid label
color. -/
inductive TErr where
  | remote : RemoteError → TErr
  | lookupError : String → TErr
  | typeError : TErr
  | decodeError : TErr
  | invalidArgument : TErr

/-- A `LazyTrello` instance: type name, path prefix (`_prefix`), remote id
(`_id`), owning connection (`_conn`), and the optional data cache (`_data`,
absent until hydration).  `pyId` models CPython object identity (`id(self)`):
distinct live instances have distinct `pyId`s. -/
structure Entity where
  tid : String
  pfx : String
  id : String
  conn : Conn
  pyId : Nat
  data : Option Jval

/-- The source's `self._path = self._prefix + obj_id`. -/
def Entity.path (e : Entity) : String := e.pfx ++ e.id

/-- The source's `LazyTrello.__init__(conn, obj_id, data=None)`: the data cache is set
only when `data` is truthy (`if data:`), so a supplied empty mapping is
treated as absent. -/
def mkEntity (tid pfx : String) (conn : Conn) (objId : String)
    (data : Option Jval) (pyId : Nat) : Entity :=
  { tid := tid, pfx := pfx, id := objId, conn := conn, pyId := pyId,
    data := match data with
      | some d => if pyTruthy d then some d else none
      | none => none }

/-- The request issued by hydration: `self._conn.get(self._path)`. -/
def hydrationRequest (e : Entity) : Request :=
  builtRequest e.conn .GET (Entity.path e) none

/-- The source's `LazyTrello.__getattr__` for `_data`: if the cache is absent, fetch
`self._path` through the connection, parse the body and store it as the
cache; then return the cache.  A failed fetch propagates and leaves the
cache absent. -/
def hydrate (fetch : Fetch) (e : Entity) :
    Except RemoteError Jval × Entity × List Request :=
  match e.data with
  | some d => (Except.ok d, e, [])
  | none =>
    match connGet e.conn fetch (Entity.path e) none with
    | (Except.ok content, tr) => (Except.ok content, { e with data := some content }, tr)
    | (Except.error err, tr) => (Except.error err, e, tr)

/-- The source's `Field.__get__`: `instance._data[self.key]` — hydrate if needed, then
subscript the cached mapping. -/
def readRawField (fetch : Fetch) (key : String) (e : Entity) :
    Except TErr Jval × Entity × List Request :=
  match hydrate fetch e with
  | (Except.error err, e', tr) => (Except.error (.remote err), e', tr)
  | (Except.ok d, e', tr) =>
    match jsubscript d key with
    | some v => (Except.ok v, e', tr)
    | none => (Except.error (.lookupError key), e', tr)

/-- Python `int(raw)` on a JSON value, modelled for the values this API
serves: integers pass through, booleans coerce to 0/1, decimal string
literals parse, everything else raises. -/
def pyInt : Jval → Option Int
  | .jnum n => some n
  | .jbool b => some (if b then 1 else 0)
  | .jstr s => pyStrToInt s
  | _ => none

/-- The source's `IntField.__get__`: `int(raw)`. -/
def readIntField (fetch : Fetch) (key : String) (e : Entity) :
    Except TErr Int × Entity × List Request :=
  match readRawField fetch key e with
  | (Except.error err, e', tr) => (Except.error err, e', tr)
  | (Except.ok v, e', tr) =>
    match pyInt v with
    | some n => (Except.ok n, e', tr)
    | none => (Except.error .decodeError, e', tr)

/-- The source's `BoolField.__get__`: `bool(raw)`. -/
def readBoolField (fetch : Fetch) (key : String) (e : Entity) :
    Except TErr Bool × Entity × List Request :=
  match readRawField fetch key e with
  | (Except.error err, e', tr) => (Except.error err, e', tr)
  | (Except.ok v, e', tr) => (Except.ok (pyTruthy v), e', tr)

/-- The source's `DateField.__get__`: `isodate.parse_datetime(raw)`.  The ISO-8601
parser is the external `isodate` collaborator, passed in as a function
returning `none` on malformed input (its failure surfaces as a decode
error); `α` is its structured timestamp type. -/
def readDateField {α : Type} (parseDatetime : String → Option α)
    (fetch : Fetch) (key : String) (e : Entity) :
    Except TErr α × Entity × List Request :=
  match readRawField fetch key e with
  | (Except.error err, e', tr) => (Except.error err, e', tr)
  | (Except.ok (.jstr s), e', tr) =>
    match parseDatetime s with
    | some t => (Except.ok t, e', tr)
    | none => (Except.error .decodeError, e', tr)
  | (Except.ok _, e', tr) => (Except.error .decodeError, e', tr)

/-- The source's `ObjectField.related_instance`: `get_class(self.cls)(conn, obj_id)` — a
fresh instance of the target type with no data supplied.  `pyId` is the
fresh object identity handed out by the allocator. -/
def relatedInstance (tid pfx : String) (conn : Conn) (objId : String)
    (pyId : Nat) : Entity :=
  mkEntity tid pfx conn objId none pyId

/-- The source's `ObjectField.__get__`: construct a fresh entity of the target type from
the id stored under `key`, sharing the owner's connection.  `nalloc` is the
allocator state (next fresh object identity); each call consumes one. -/
def readObjectField (fetch : Fetch) (key : String) (tid pfx : String)
    (e : Entity) (nalloc : Nat) :
    Except TErr Entity × Entity × List Request × Nat :=
  match readRawField fetch key e with
  | (Except.error err, e', tr) => (Except.error err, e', tr, nalloc)
  | (Except.ok (.jstr objId), e', tr) =>
      (Except.ok (relatedInstance tid pfx e'.conn objId nalloc), e', tr, nalloc + 1)
  | (Except.ok _, e', tr) => (Except.error .typeError, e', tr, nalloc)

/-- The source's `[self.related_instance(conn, id) for id in ids]`: one fresh entity per
id, in order, each allocated a fresh object identity.  Iteration is
modelled for JSON arrays of string ids (the shape this API serves); a
non-string element raises. -/
def relatedInstances (tid pfx : String) (conn : Conn) :
    List Jval → Nat → Option (List Entity × Nat)
  | [], nalloc => some ([], nalloc)
  | .jstr objId :: rest, nalloc =>
    match relatedInstances tid pfx conn rest (nalloc + 1) with
    | some (es, nalloc') => some (relatedInstance tid pfx conn objId nalloc :: es, nalloc')
    | none => none
  | _ :: _, _ => none

/-- The source's `ListField.__get__`: read the sequence of ids under `key` and construct
one entity per id with the owner's connection. -/
def readListField (fetch : Fetch) (key : String) (tid pfx : String)
    (e : Entity) (nalloc : Nat) :
    Except TErr (List Entity) × Entity × List Request × Nat :=
  match readRawField fetch key e with
  | (Except.error err, e', tr) => (Except.error err, e', tr, nalloc)
  | (Except.ok (.jarr ids), e', tr) =>
    match relatedInstances tid pfx e'.conn ids nalloc with
    | some (es, nalloc') => (Except.ok es, e', tr, nalloc')
    | none => (Except.error .typeError, e', tr, nalloc)
  | (Except.ok _, e', tr) => (Except.error .typeError, e', tr, nalloc)

/-- The cache key used by `SubList.__get__`:
`"%s:%s" % (instance._id, id(instance))`.  Since `id(instance)` renders as
a colon-free decimal, the string is in bijection with the pair (remote id,
object identity), which is how we model it. -/
def subListKey (e : Entity) : String × Nat := (e.id, e.pyId)

/-- The `_lists` cache held by one `SubList` descriptor object. -/
structure SubListState where
  lists : List ((String × Nat) × List Entity)

/-- First-match lookup in the `_lists` cache. -/
def slookup : List ((String × Nat) × List Entity) → (String × Nat) → Option (List Entity)
  | [], _ => none
  | (k, l) :: rest, key => if k = key then some l else slookup rest key

/-- The source's `[cls(instance._conn, d['id'], d) for d in data]`: construct one
target-type entity per element, pre-supplied with that element's data, each
with a fresh object identity.  An element without a string `'id'` raises. -/
def subListElems (tid pfx : String) (conn : Conn) :
    List Jval → Nat → Option (List Entity × Nat)
  | [], nalloc => some ([], nalloc)
  | d :: rest, nalloc =>
    match jsubscript d "id" with
    | some (.jstr objId) =>
      match subListElems tid pfx conn rest (nalloc + 1) with
      | some (es, nalloc') => some (mkEntity tid pfx conn objId (some d) nalloc :: es, nalloc')
      | none => none
    | _ => none

/-- The source's `SubList.__get__`: on a cache miss for this owner instance, GET
`instance._prefix + instance._id + cls._prefix`, build one pre-hydrated
entity per array element, store the sequence in the descriptor's `_lists`
cache under the instance key, and return it; on a hit, return the cached
sequence with no fetch. -/
def subListGet (fetch : Fetch) (tid tpfx : String) (st : SubListState)
    (inst : Entity) (nalloc : Nat) :
    Except TErr (List Entity) × SubListState × List Request × Nat :=
  let key := subListKey inst
  match slookup st.lists key with
  | some l => (Except.ok l, st, [], nalloc)
  | none =>
    match connGet inst.conn fetch (inst.pfx ++ inst.id ++ tpfx) none with
    | (Except.error err, tr) => (Except.error (.remote err), st, tr, nalloc)
    | (Except.ok (.jarr ds), tr) =>
      match subListElems tid tpfx inst.conn ds nalloc with
      | some (es, nalloc') =>
          (Except.ok es, { lists := (key, es) :: st.lists }, tr, nalloc')
      | none => (Except.error .typeError, st, tr, nalloc)
    | (Except.ok _, tr) => (Except.error .typeError, st, tr, nalloc)

/-- The source's `Labeled._valid_label_colors`. -/
def validLabelColors : List String :=
  ["green", "yellow", "orange", "red", "purple", "blue"]

/-- The source's `Labeled.set_label(color)`: lowercase the color; raise `ValueError`
without issuing any request if it is not a valid label color, else POST
`{'value': color}` to `self._prefix + self._id + '/labels'`. -/
def set_label (fetch : Fetch) (e : Entity) (color : String) :
    Except TErr Unit × List Request :=
  let c := pyLower color
  if validLabelColors.contains c then
    match connPost e.conn fetch (e.pfx ++ e.id ++ "/labels") (some [("value", c)]) none with
    | (Except.ok _, tr) => (Except.ok (), tr)
    | (Except.error err, tr) => (Except.error (.remote err), tr)
  else
    (Except.error .invalidArgument, [])

/-- The source's `Labeled.clear_label(color)`: lowercase the color; raise `ValueError`
without issuing any request if it is not a valid label color, else DELETE
`self._prefix + self._id + '/labels/' + color`. -/
def clear_label (fetch : Fetch) (e : Entity) (color : String) :
    Except TErr Unit × List Request :=
  let c := pyLower color
  if validLabelColors.contains c then
    match connDelete e.conn fetch (e.pfx ++ e.id ++ "/labels/" ++ c) none none with
    | (Except.ok _, tr) => (Except.ok (), tr)
    | (Except.error err, tr) => (Except.error (.remote err), tr)
  else
    (Except.error .invalidArgument, [])

/-! ### Concrete fixtures used by witnesses and counterexamples -/

/-- A concrete connection. -/
def testConn : Conn := ⟨"KEY", "TOKEN"⟩

/-- A concrete card document as returned by `GET /cards/abc123`. -/
def cardData : Jval :=
  Jval.jobj [("id", Jval.jstr "abc123"), ("name", Jval.jstr "Demo"),
             ("idBoard", Jval.jstr "b1"), ("closed", Jval.jbool false),
             ("idMembers", Jval.jarr [Jval.jstr "m1", Jval.jstr "m2"])]

/-- A transport that always answers 200 with the card document. -/
def okFetch : Fetch := fun _ => ⟨200, cardData⟩

/-- A transport that always answers 404. -/
def errFetch : Fetch := fun _ => ⟨404, Jval.jstr "not found"⟩

/-- An unhydrated card, as built by `Connection.get_card("abc123")`. -/
def testCard : Entity := mkEntity "Card" "/cards/" testConn "abc123" none 0

/-- A pre-hydrated card (data supplied at construction). -/
def hydratedCard : Entity := mkEntity "Card" "/cards/" testConn "abc123" (some cardData) 1

/-- An unhydrated board, and a second instance for the same remote id with
a different object identity. -/
def testBoard : Entity := mkEntity "Board" "/boards/" testConn "b1" none 5

/-- Second instance, same remote id, distinct `id()`. -/
def testBoard₂ : Entity := mkEntity "Board" "/boards/" testConn "b1" none 6

/-- A transport serving a one-card array for the board's cards sub-path. -/
def boardFetch : Fetch := fun _ => ⟨200, Jval.jarr [Jval.jobj [("id", Jval.jstr "c1")]]⟩

/-! ### Helper lemmas on the connection layer -/

/-- The source's `request` issues exactly the one request it builds, in every case. -/
theorem trelloRequest_trace (conn : Conn) (fetch : Fetch) (method : HMethod)
    (path : String) (params : Option (List (String × String)))
    (body filename : Option Jval) :
    (trelloRequest conn fetch method path params body filename).2 =
      [builtRequest conn method path params] := by
  unfold trelloRequest
  dsimp only
  split <;> rfl

/-- On a 200 response, `request` returns the raw body. -/
theorem trelloRequest_ok (conn : Conn) (fetch : Fetch) (method : HMethod)
    (path : String) (params : Option (List (String × String)))
    (body filename : Option Jval)
    (h : (fetch (builtRequest conn method path params)).statusCode = 200) :
    (trelloRequest conn fetch method path params body filename).1 =
      Except.ok (fetch (builtRequest conn method path params)).content := by
  unfold trelloRequest
  simp [h]

/-- On any response other than 200, `request` raises with that status and
body. -/
theorem trelloRequest_err (conn : Conn) (fetch : Fetch) (method : HMethod)
    (path : String) (params : Option (List (String × String)))
    (body filename : Option Jval)
    (h : (fetch (builtRequest conn method path params)).statusCode ≠ 200) :
    (trelloRequest conn fetch method path params body filename).1 =
      Except.error ⟨(fetch (builtRequest conn method path params)).statusCode,
                    (fetch (builtRequest conn method path params)).content⟩ := by
  unfold trelloRequest
  simp [h]

/-- Looking up the key just inserted finds the new value. -/
theorem plookup_pinsert_self (d : List (String × String)) (k v : String) :
    plookup (pinsert d k v) k = some v := by
  induction d with
  | nil => simp [pinsert, plookup]
  | cons hd tl ih =>
    obtain ⟨k', v'⟩ := hd
    by_cases h : k' = k <;> simp [pinsert, plookup, h, ih]

/-- Inserting under a different key leaves a lookup unchanged. -/
theorem plookup_pinsert_ne (d : List (String × String)) (k k' v : String)
    (h : k' ≠ k) :
    plookup (pinsert d k' v) k = plookup d k := by
  induction d with
  | nil => simp [pinsert, plookup, h]
  | cons hd tl ih =>
    obtain ⟨a, b⟩ := hd
    by_cases ha : a = k'
    · subst ha
      simp [pinsert, plookup, h]
    · by_cases hk : a = k <;> simp [pinsert, plookup, ha, hk, ih, h, Ne.symm h]

/-- Every request built by the connection carries the credentials in its
query parameters, overriding any caller-supplied values. -/
theorem builtRequest_credentials (conn : Conn) (method : HMethod)
    (path : String) (params : Option (List (String × String))) :
    plookup (builtRequest conn method path params).params "key" = some conn.key ∧
    plookup (builtRequest conn method path params).params "token" = some conn.token := by
  constructor
  · show plookup (pinsert (pinsert (params.getD []) "key" conn.key) "token" conn.token) "key" = _
    rw [plookup_pinsert_ne _ _ _ _ (by decide), plookup_pinsert_self]
  · exact plookup_pinsert_self ..

/-! ### Claim theorems: connection layer -/

/-- C10: `Connection.request` ignores its `body` and `filename` arguments:
two calls agreeing on method, path, params and credentials but differing in
body or filename produce the identical outgoing transport request and the
identical result, so POST/PUT bodies are never transmitted. -/
theorem request_ignores_body_and_filename (conn : Conn) (fetch : Fetch)
    (method : HMethod) (path : String) (params : Option (List (String × String)))
    (body₁ filename₁ body₂ filename₂ : Option Jval) :
    trelloRequest conn fetch method path params body₁ filename₁ =
      trelloRequest conn fetch method path params body₂ filename₂ :=
  rfl

/-- C5 (counterexample): the code treats status 201 — a 2xx success
status — as a failure, so "fails if and only if the status is not 2xx" is
false: here the transport answers 201 and `request` raises anyway. -/
theorem request_status_counterexample :
    ((200 : Int) ≤ 201 ∧ (201 : Int) ≤ 299) ∧
    (trelloRequest testConn (fun _ => ⟨201, Jval.jnull⟩) .GET "/x" none none none).1 =
      Except.error ⟨201, Jval.jnull⟩ := by
  exact ⟨by decide, rfl⟩

/-- C5 (amended): `Connection.request(method, path, params, body)` prefixes
`path` with `/` if missing, performs exactly one transport call, fails with
`RemoteError{statusCode, body}` if (and only if) the response status is not
exactly 200, and otherwise returns the raw response body. -/
theorem request_behavior (conn : Conn) (fetch : Fetch) (method : HMethod)
    (path : String) (params : Option (List (String × String)))
    (body filename : Option Jval) :
    (trelloRequest conn fetch method path params body filename).2 =
      [builtRequest conn method path params] ∧
    (builtRequest conn method path params).path =
      (if strStartsWith path "/" then path else "/" ++ path) ∧
    (builtRequest conn method path params).method = method ∧
    ((fetch (builtRequest conn method path params)).statusCode = 200 →
      (trelloRequest conn fetch method path params body filename).1 =
        Except.ok (fetch (builtRequest conn method path params)).content) ∧
    ((fetch (builtRequest conn method path params)).statusCode ≠ 200 →
      (trelloRequest conn fetch method path params body filename).1 =
        Except.error ⟨(fetch (builtRequest conn method path params)).statusCode,
                      (fetch (builtRequest conn method path params)).content⟩) := by
  refine ⟨trelloRequest_trace .., rfl, rfl, ?_, ?_⟩
  · exact trelloRequest_ok conn fetch method path params body filename
  · exact trelloRequest_err conn fetch method path params body filename

/-- C5 (witness): the amended behavior at a concrete failing call. -/
theorem request_behavior_witness :
    (trelloRequest testConn errFetch .GET "cards/c1" none none none).2 =
      [builtRequest testConn .GET "cards/c1" none] ∧
    (builtRequest testConn .GET "cards/c1" none).path = "/cards/c1" ∧
    (trelloRequest testConn errFetch .GET "cards/c1" none none none).1 =
      Except.error ⟨404, Jval.jstr "not found"⟩ := by
  have h := request_behavior testConn errFetch .GET "cards/c1" none none none
  refine ⟨h.1, ?_, h.2.2.2.2 (by decide)⟩
  rw [h.2.1]
  rfl

/-- C9: every outgoing request issued through the connection carries the
connection's key and token as query-string parameters, even when the caller
supplies its own params mapping. -/
theorem every_request_carries_credentials (conn : Conn) (fetch : Fetch)
    (method : HMethod) (path : String) (params : Option (List (String × String)))
    (body filename : Option Jval) :
    ∀ req ∈ (trelloRequest conn fetch method path params body filename).2,
      plookup req.params "key" = some conn.key ∧
      plookup req.params "token" = some conn.token := by
  intro req hreq
  rw [trelloRequest_trace, List.mem_singleton] at hreq
  subst hreq
  exact builtRequest_credentials conn method path params

/-- C9 (witness): a concrete call whose caller-supplied params even try to
override the credentials. -/
theorem every_request_carries_credentials_witness :
    plookup (builtRequest testConn .GET "/boards/b" (some [("key", "EVIL"), ("fields", "name")])).params
        "key" = some "KEY" ∧
    plookup (builtRequest testConn .GET "/boards/b" (some [("key", "EVIL"), ("fields", "name")])).params
        "token" = some "TOKEN" := by
  have h := every_request_carries_credentials testConn okFetch .GET "/boards/b"
    (some [("key", "EVIL"), ("fields", "name")]) none none
    (builtRequest testConn .GET "/boards/b" (some [("key", "EVIL"), ("fields", "name")]))
    (by rw [trelloRequest_trace]; exact List.mem_singleton.mpr rfl)
  exact h

/-! ### Helper lemmas on hydration and field reads -/

/-- A hydrated entity is returned unchanged, with no fetch. -/
theorem hydrate_hydrated (fetch : Fetch) (e : Entity) (d : Jval)
    (h : e.data = some d) :
    hydrate fetch e = (Except.ok d, e, []) := by
  unfold hydrate
  rw [h]

/-- Hydrating an unhydrated entity on a 200 response issues exactly the one
hydration request and stores the response body as the cache. -/
theorem hydrate_unhydrated (fetch : Fetch) (e : Entity)
    (hdata : e.data = none)
    (hok : (fetch (hydrationRequest e)).statusCode = 200) :
    hydrate fetch e =
      (Except.ok (fetch (hydrationRequest e)).content,
       { e with data := some (fetch (hydrationRequest e)).content },
       [hydrationRequest e]) := by
  unfold hydrate connGet
  rw [hdata]
  have htr := trelloRequest_trace e.conn fetch .GET (Entity.path e) none none none
  have hres := trelloRequest_ok e.conn fetch .GET (Entity.path e) none none none hok
  rcases hh : trelloRequest e.conn fetch .GET (Entity.path e) none none none with ⟨r, tr⟩
  rw [hh] at htr hres
  simp only at htr hres
  subst htr
  rw [hres]
  rfl

/-- Hydrating an unhydrated entity on a non-200 response propagates the
error, leaves the entity unchanged, and still issues the one request. -/
theorem hydrate_failed (fetch : Fetch) (e : Entity)
    (hdata : e.data = none)
    (hfail : (fetch (hydrationRequest e)).statusCode ≠ 200) :
    hydrate fetch e =
      (Except.error ⟨(fetch (hydrationRequest e)).statusCode,
                     (fetch (hydrationRequest e)).content⟩,
       e, [hydrationRequest e]) := by
  unfold hydrate connGet
  rw [hdata]
  have htr := trelloRequest_trace e.conn fetch .GET (Entity.path e) none none none
  have hres := trelloRequest_err e.conn fetch .GET (Entity.path e) none none none hfail
  rcases hh : trelloRequest e.conn fetch .GET (Entity.path e) none none none with ⟨r, tr⟩
  rw [hh] at htr hres
  simp only at htr hres
  subst htr
  rw [hres]
  rfl

/-- A raw field read changes the entity and issues requests exactly as
hydration does, whatever the subscript finds. -/
theorem readRawField_state (fetch : Fetch) (key : String) (e : Entity) :
    (readRawField fetch key e).2 = (hydrate fetch e).2 := by
  unfold readRawField
  rcases hh : hydrate fetch e with ⟨r, e', tr⟩
  cases r with
  | error err => rfl
  | ok d => cases hsub : jsubscript d key <;> simp only [hsub]

/-- A related-object read changes the owner and issues requests exactly as
the underlying raw read does. -/
theorem readObjectField_state (fetch : Fetch) (key tid pfx : String)
    (e : Entity) (nalloc : Nat) :
    (readObjectField fetch key tid pfx e nalloc).2.1 = (readRawField fetch key e).2.1 ∧
    (readObjectField fetch key tid pfx e nalloc).2.2.1 = (readRawField fetch key e).2.2 := by
  unfold readObjectField
  rcases hh : readRawField fetch key e with ⟨r, e', tr⟩
  cases r with
  | error err => exact ⟨rfl, rfl⟩
  | ok v => cases v <;> exact ⟨rfl, rfl⟩

/-- A related-object-list read changes the owner and issues requests
exactly as the underlying raw read does. -/
theorem readListField_state (fetch : Fetch) (key tid pfx : String)
    (e : Entity) (nalloc : Nat) :
    (readListField fetch key tid pfx e nalloc).2.1 = (readRawField fetch key e).2.1 ∧
    (readListField fetch key tid pfx e nalloc).2.2.1 = (readRawField fetch key e).2.2 := by
  unfold readListField
  rcases hh : readRawField fetch key e with ⟨r, e', tr⟩
  cases r with
  | error err => exact ⟨rfl, rfl⟩
  | ok v =>
    cases v <;> try exact ⟨rfl, rfl⟩
    case jarr ids =>
      cases hri : relatedInstances tid pfx e'.conn ids nalloc with
      | none => simp only [hri]; exact ⟨trivial, trivial⟩
      | some p => obtain ⟨es, n'⟩ := p; simp only [hri]; exact ⟨trivial, trivial⟩

/-! ### Claim theorems: lazy entity hydration -/

/-- C1: on an unhydrated entity, the first read of any Field,
Related-Object Field, or Related-Object-List Field triggers exactly one
fetch, a GET of `prefix+id`; any further field read on the resulting
instance triggers zero additional fetches and leaves the instance
unchanged, so the entity never returns to the unhydrated state. -/
theorem first_field_read_fetches_once (fetch : Fetch) (e : Entity) (key : String)
    (hdata : e.data = none)
    (hok : (fetch (hydrationRequest e)).statusCode = 200)
    (hslash : strStartsWith (Entity.path e) "/" = true) :
    (hydrationRequest e).method = HMethod.GET ∧
    (hydrationRequest e).path = Entity.path e ∧
    (readRawField fetch key e).2.2 = [hydrationRequest e] ∧
    (∀ tid pfx n, (readObjectField fetch key tid pfx e n).2.2.1 = [hydrationRequest e]) ∧
    (∀ tid pfx n, (readListField fetch key tid pfx e n).2.2.1 = [hydrationRequest e]) ∧
    (readRawField fetch key e).2.1.data = some (fetch (hydrationRequest e)).content ∧
    (∀ (fetch' : Fetch) (key' : String),
      (readRawField fetch' key' ((readRawField fetch key e).2.1)).2.2 = [] ∧
      (readRawField fetch' key' ((readRawField fetch key e).2.1)).2.1 =
        (readRawField fetch key e).2.1) ∧
    (∀ (fetch' : Fetch) (key' tid pfx : String) (n : Nat),
      (readObjectField fetch' key' tid pfx ((readRawField fetch key e).2.1) n).2.2.1 = [] ∧
      (readListField fetch' key' tid pfx ((readRawField fetch key e).2.1) n).2.2.1 = []) := by
  have hH := hydrate_unhydrated fetch e hdata hok
  have hstate := readRawField_state fetch key e
  rw [hH] at hstate
  have h21 : (readRawField fetch key e).2.1 =
      { e with data := some (fetch (hydrationRequest e)).content } := by rw [hstate]
  have h22 : (readRawField fetch key e).2.2 = [hydrationRequest e] := by rw [hstate]
  have hhyd : (readRawField fetch key e).2.1.data =
      some (fetch (hydrationRequest e)).content := by rw [h21]
  refine ⟨rfl, ?_, h22, ?_, ?_, hhyd, ?_, ?_⟩
  · show (builtRequest e.conn .GET (Entity.path e) none).path = Entity.path e
    simp [builtRequest, hslash]
  · intro tid pfx n
    rw [(readObjectField_state fetch key tid pfx e n).2, h22]
  · intro tid pfx n
    rw [(readListField_state fetch key tid pfx e n).2, h22]
  · intro fetch' key'
    have hh2 := hydrate_hydrated fetch' ((readRawField fetch key e).2.1)
      ((fetch (hydrationRequest e)).content) hhyd
    have hs := readRawField_state fetch' key' ((readRawField fetch key e).2.1)
    rw [hh2] at hs
    exact ⟨by rw [hs], by rw [hs]⟩
  · intro fetch' key' tid pfx n
    have hh2 := hydrate_hydrated fetch' ((readRawField fetch key e).2.1)
      ((fetch (hydrationRequest e)).content) hhyd
    have hs := readRawField_state fetch' key' ((readRawField fetch key e).2.1)
    rw [hh2] at hs
    constructor
    · rw [(readObjectField_state fetch' key' tid pfx _ n).2, hs]
    · rw [(readListField_state fetch' key' tid pfx _ n).2, hs]

/-- C1 (witness): the scenario on a concrete unhydrated card and a 200
transport. -/
theorem first_field_read_fetches_once_witness :
    (readRawField okFetch "name" testCard).2.2 = [hydrationRequest testCard] ∧
    (readRawField okFetch "url" ((readRawField okFetch "name" testCard).2.1)).2.2 = [] := by
  have h := first_field_read_fetches_once okFetch testCard "name" rfl rfl (by decide)
  exact ⟨h.2.2.1, (h.2.2.2.2.2.2.1 okFetch "url").1⟩

/-- C3: if the hydration fetch fails, the failure propagates to the caller
of the triggering field access as a remote error, the entity's data cache
remains absent, and a subsequent field access on the same instance attempts
the fetch again. -/
theorem failed_hydration_propagates_and_retries (fetch : Fetch) (e : Entity)
    (key : String)
    (hdata : e.data = none)
    (hfail : (fetch (hydrationRequest e)).statusCode ≠ 200) :
    (readRawField fetch key e).1 =
      Except.error (TErr.remote ⟨(fetch (hydrationRequest e)).statusCode,
                                 (fetch (hydrationRequest e)).content⟩) ∧
    (readRawField fetch key e).2.1 = e ∧
    (readRawField fetch key e).2.1.data = none ∧
    (readRawField fetch key e).2.2 = [hydrationRequest e] ∧
    ∀ key₂, (readRawField fetch key₂ ((readRawField fetch key e).2.1)).2.2 =
      [hydrationRequest e] := by
  have hH := hydrate_failed fetch e hdata hfail
  have hall : readRawField fetch key e =
      (Except.error (TErr.remote ⟨(fetch (hydrationRequest e)).statusCode,
                                  (fetch (hydrationRequest e)).content⟩),
       e, [hydrationRequest e]) := by
    unfold readRawField
    rw [hH]
  refine ⟨by rw [hall], by rw [hall], by rw [hall]; exact hdata, by rw [hall], ?_⟩
  intro key₂
  have hs := readRawField_state fetch key₂ ((readRawField fetch key e).2.1)
  rw [hall] at hs ⊢
  rw [hs, hH]

/-- C3 (witness): a concrete 404 on the hydrating fetch. -/
theorem failed_hydration_witness :
    (readRawField errFetch "name" testCard).1 =
      Except.error (TErr.remote ⟨404, Jval.jstr "not found"⟩) ∧
    (readRawField errFetch "name" testCard).2.1.data = none ∧
    (readRawField errFetch "name" ((readRawField errFetch "name" testCard).2.1)).2.2 =
      [hydrationRequest testCard] := by
  have h := failed_hydration_propagates_and_retries errFetch testCard "name" rfl (by decide)
  refine ⟨h.1, h.2.2.1, ?_⟩
  have := h.2.2.2.2 "name"
  rwa [h.2.1] at this ⊢

/-- C2 (counterexample): an entity constructed with a supplied but empty
data mapping does not start hydrated — `__init__` guards the cache with
`if data:` and an empty dict is falsy — so its first field read does
trigger a network fetch. -/
theorem prehydrated_empty_mapping_counterexample :
    (mkEntity "Card" "/cards/" testConn "c9" (some (Jval.jobj [])) 7).data = none ∧
    (readRawField okFetch "name"
      (mkEntity "Card" "/cards/" testConn "c9" (some (Jval.jobj [])) 7)).2.2.length = 1 := by
  exact ⟨rfl, rfl⟩

/-- C2 (amended): for every entity constructed with a supplied *nonempty*
data mapping (a truthy value under the `if data:` guard), the entity starts
hydrated: field reads of every kind decode from the supplied mapping and
never trigger a network fetch. -/
theorem prehydrated_entity_reads_no_fetch (tid pfx oid : String) (conn : Conn)
    (pyId : Nat) (m : List (String × Jval)) (hm : m ≠ []) :
    (mkEntity tid pfx conn oid (some (Jval.jobj m)) pyId).data = some (Jval.jobj m) ∧
    ∀ (fetch : Fetch) (key : String),
      (readRawField fetch key (mkEntity tid pfx conn oid (some (Jval.jobj m)) pyId)).2.2 = [] ∧
      (readRawField fetch key (mkEntity tid pfx conn oid (some (Jval.jobj m)) pyId)).1 =
        (match dlookup m key with
         | some v => Except.ok v
         | none => Except.error (TErr.lookupError key)) ∧
      (readIntField fetch key (mkEntity tid pfx conn oid (some (Jval.jobj m)) pyId)).2.2 = [] ∧
      (readIntField fetch key (mkEntity tid pfx conn oid (some (Jval.jobj m)) pyId)).1 =
        (match dlookup m key with
         | some v =>
           (match pyInt v with
            | some n => Except.ok n
            | none => Except.error TErr.decodeError)
         | none => Except.error (TErr.lookupError key)) ∧
      (readBoolField fetch key (mkEntity tid pfx conn oid (some (Jval.jobj m)) pyId)).2.2 = [] ∧
      (readBoolField fetch key (mkEntity tid pfx conn oid (some (Jval.jobj m)) pyId)).1 =
        (match dlookup m key with
         | some v => Except.ok (pyTruthy v)
         | none => Except.error (TErr.lookupError key)) ∧
      ∀ (α : Type) (parseDatetime : String → Option α),
        (readDateField parseDatetime fetch key
          (mkEntity tid pfx conn oid (some (Jval.jobj m)) pyId)).2.2 = [] := by
  have hdata : (mkEntity tid pfx conn oid (some (Jval.jobj m)) pyId).data =
      some (Jval.jobj m) := by
    cases m with
    | nil => exact absurd rfl hm
    | cons hd tl => rfl
  refine ⟨hdata, ?_⟩
  intro fetch key
  have hh := hydrate_hydrated fetch _ _ hdata
  have hraw : readRawField fetch key (mkEntity tid pfx conn oid (some (Jval.jobj m)) pyId) =
      ((match dlookup m key with
        | some v => Except.ok v
        | none => Except.error (TErr.lookupError key)),
       mkEntity tid pfx conn oid (some (Jval.jobj m)) pyId, []) := by
    unfold readRawField
    rw [hh]
    show (match jsubscript (Jval.jobj m) key with
          | some v => (Except.ok v, _, ([] : List Request))
          | none => (Except.error (TErr.lookupError key), _, [])) = _
    cases hl : dlookup m key <;> simp [jsubscript, hl]
  refine ⟨by rw [hraw], by rw [hraw], ?_, ?_, ?_, ?_, ?_⟩
  · unfold readIntField
    rw [hraw]
    cases hl : dlookup m key with
    | none => rfl
    | some v => cases hpi : pyInt v <;> simp only [hpi]
  · unfold readIntField
    rw [hraw]
    cases hl : dlookup m key with
    | none => rfl
    | some v => cases hpi : pyInt v <;> simp only [hpi]
  · unfold readBoolField
    rw [hraw]
    cases hl : dlookup m key <;> rfl
  · unfold readBoolField
    rw [hraw]
    cases hl : dlookup m key <;> rfl
  · intro α parseDatetime
    unfold readDateField
    rw [hraw]
    cases hl : dlookup m key with
    | none => rfl
    | some v =>
      cases v <;> try rfl
      case jstr s =>
        cases hps : parseDatetime s <;> simp only [hps]

/-- C2 (witness): the amended claim at a concrete pre-hydrated card. -/
theorem prehydrated_entity_reads_witness :
    (mkEntity "Card" "/cards/" testConn "abc123"
      (some (Jval.jobj [("name", Jval.jstr "Demo"), ("badges", Jval.jnum 3)])) 1).data =
      some (Jval.jobj [("name", Jval.jstr "Demo"), ("badges", Jval.jnum 3)]) ∧
    (readRawField okFetch "name"
      (mkEntity "Card" "/cards/" testConn "abc123"
        (some (Jval.jobj [("name", Jval.jstr "Demo"), ("badges", Jval.jnum 3)])) 1)).2.2 = [] ∧
    (readRawField okFetch "name"
      (mkEntity "Card" "/cards/" testConn "abc123"
        (some (Jval.jobj [("name", Jval.jstr "Demo"), ("badges", Jval.jnum 3)])) 1)).1 =
      Except.ok (Jval.jstr "Demo") := by
  have h := prehydrated_entity_reads_no_fetch "Card" "/cards/" "abc123" testConn 1
    [("name", Jval.jstr "Demo"), ("badges", Jval.jnum 3)] (by simp)
  refine ⟨h.1, (h.2 okFetch "name").1, ?_⟩
  rw [(h.2 okFetch "name").2.1]
  rfl


/-- Constructing related instances from a list of string ids succeeds and
yields one fresh unhydrated entity per id, in order. -/
theorem relatedInstances_spec (tid pfx : String) (conn : Conn) (ss : List String) :
    ∀ n, ∃ es, relatedInstances tid pfx conn (ss.map Jval.jstr) n = some (es, n + ss.length) ∧
      es.map (fun ent => ent.id) = ss ∧
      ∀ ent ∈ es, ent.tid = tid ∧ ent.pfx = pfx ∧ ent.conn = conn ∧ ent.data = none := by
  induction ss with
  | nil => intro n; exact ⟨[], rfl, rfl, by simp⟩
  | cons s rest ih =>
    intro n
    obtain ⟨es, heq, hids, hprops⟩ := ih (n + 1)
    refine ⟨relatedInstance tid pfx conn s n :: es, ?_, ?_, ?_⟩
    · show relatedInstances tid pfx conn (Jval.jstr s :: rest.map Jval.jstr) n = _
      unfold relatedInstances
      rw [heq]
      have harith : n + 1 + rest.length = n + (s :: rest).length := by
        simp [List.length_cons]
        omega
      rw [harith]
    · simp only [List.map_cons, hids]
      rfl
    · intro ent hent
      rcases List.mem_cons.mp hent with hhd | htl
      · subst hhd
        exact ⟨rfl, rfl, rfl, rfl⟩
      · exact hprops ent htl

/-- C6: two reads of the same related-object attribute on the same hydrated
owner each construct a fresh entity: the two results have the same type and
id but are distinct instances (distinct object identities), each with an
absent data cache — no interning or deduplication. -/
theorem related_object_not_interned (fetch : Fetch) (e : Entity)
    (key tid pfx oid : String) (d : Jval) (n : Nat)
    (hdata : e.data = some d)
    (hkey : jsubscript d key = some (Jval.jstr oid)) :
    (readObjectField fetch key tid pfx e n).1 =
      Except.ok (relatedInstance tid pfx e.conn oid n) ∧
    (readObjectField fetch key tid pfx e n).2.1 = e ∧
    (readObjectField fetch key tid pfx e n).2.2.1 = [] ∧
    (readObjectField fetch key tid pfx
        ((readObjectField fetch key tid pfx e n).2.1)
        ((readObjectField fetch key tid pfx e n).2.2.2)).1 =
      Except.ok (relatedInstance tid pfx e.conn oid (n + 1)) ∧
    (readObjectField fetch key tid pfx
        ((readObjectField fetch key tid pfx e n).2.1)
        ((readObjectField fetch key tid pfx e n).2.2.2)).2.2.1 = [] ∧
    (relatedInstance tid pfx e.conn oid n).tid =
      (relatedInstance tid pfx e.conn oid (n + 1)).tid ∧
    (relatedInstance tid pfx e.conn oid n).id = oid ∧
    (relatedInstance tid pfx e.conn oid (n + 1)).id = oid ∧
    (relatedInstance tid pfx e.conn oid n).data = none ∧
    (relatedInstance tid pfx e.conn oid (n + 1)).data = none ∧
    (relatedInstance tid pfx e.conn oid n).pyId ≠
      (relatedInstance tid pfx e.conn oid (n + 1)).pyId := by
  have hh := hydrate_hydrated fetch e d hdata
  have hraw : readRawField fetch key e = (Except.ok (Jval.jstr oid), e, []) := by
    unfold readRawField
    rw [hh]
    simp only [hkey]
  have hobj : ∀ m, readObjectField fetch key tid pfx e m =
      (Except.ok (relatedInstance tid pfx e.conn oid m), e, [], m + 1) := by
    intro m
    unfold readObjectField
    rw [hraw]
  have hfst := hobj n
  refine ⟨by rw [hfst], by rw [hfst], by rw [hfst], ?_, ?_, rfl, rfl, rfl, rfl, rfl, ?_⟩
  · rw [hfst]
    show (readObjectField fetch key tid pfx e (n + 1)).1 = _
    rw [hobj (n + 1)]
  · rw [hfst]
    show (readObjectField fetch key tid pfx e (n + 1)).2.2.1 = _
    rw [hobj (n + 1)]
  · show n ≠ n + 1
    omega

/-- C6 (witness): two `.board` reads on a concrete hydrated card. -/
theorem related_object_not_interned_witness :
    (readObjectField okFetch "idBoard" "Board" "/boards/" hydratedCard 10).1 =
      Except.ok (relatedInstance "Board" "/boards/" testConn "b1" 10) ∧
    (readObjectField okFetch "idBoard" "Board" "/boards/"
        ((readObjectField okFetch "idBoard" "Board" "/boards/" hydratedCard 10).2.1)
        ((readObjectField okFetch "idBoard" "Board" "/boards/" hydratedCard 10).2.2.2)).1 =
      Except.ok (relatedInstance "Board" "/boards/" testConn "b1" 11) ∧
    (relatedInstance "Board" "/boards/" testConn "b1" 10).pyId ≠
      (relatedInstance "Board" "/boards/" testConn "b1" 11).pyId := by
  have h := related_object_not_interned okFetch hydratedCard "idBoard" "Board" "/boards/"
    "b1" cardData 10 rfl rfl
  exact ⟨h.1, h.2.2.2.1, h.2.2.2.2.2.2.2.2.2.2⟩

/-- C8: on a hydrated entity whose Related-Object-List field key maps to a
sequence of ids, reading that field returns one entity of the target type
per id, in the order the ids appear in the raw data, each sharing the
owner's connection and each unhydrated, with no fetch issued. -/
theorem list_field_one_entity_per_id (fetch : Fetch) (e : Entity)
    (key tid pfx : String) (d : Jval) (ss : List String) (n : Nat)
    (hdata : e.data = some d)
    (hkey : jsubscript d key = some (Jval.jarr (ss.map Jval.jstr))) :
    ∃ es, (readListField fetch key tid pfx e n).1 = Except.ok es ∧
      (readListField fetch key tid pfx e n).2.2.1 = [] ∧
      es.length = ss.length ∧
      es.map (fun ent => ent.id) = ss ∧
      ∀ ent ∈ es, ent.tid = tid ∧ ent.conn = e.conn ∧ ent.data = none := by
  have hh := hydrate_hydrated fetch e d hdata
  have hraw : readRawField fetch key e =
      (Except.ok (Jval.jarr (ss.map Jval.jstr)), e, []) := by
    unfold readRawField
    rw [hh]
    simp only [hkey]
  obtain ⟨es, heq, hids, hprops⟩ := relatedInstances_spec tid pfx e.conn ss n
  have hlist : readListField fetch key tid pfx e n =
      (Except.ok es, e, [], n + ss.length) := by
    unfold readListField
    rw [hraw]
    simp only [heq]
  refine ⟨es, by rw [hlist], by rw [hlist], ?_, hids,
    fun ent h => ⟨(hprops ent h).1, (hprops ent h).2.2.1, (hprops ent h).2.2.2⟩⟩
  rw [← hids, List.length_map]

/-- C8 (witness): reading `.members` ids from a concrete hydrated card. -/
theorem list_field_one_entity_per_id_witness :
    ∃ es, (readListField okFetch "idMembers" "Member" "/members/" hydratedCard 20).1 =
        Except.ok es ∧
      (readListField okFetch "idMembers" "Member" "/members/" hydratedCard 20).2.2.1 = [] ∧
      es.map (fun ent => ent.id) = ["m1", "m2"] := by
  obtain ⟨es, h1, h2, h3, h4, h5⟩ := list_field_one_entity_per_id okFetch hydratedCard
    "idMembers" "Member" "/members/" cardData ["m1", "m2"] 20 rfl rfl
  exact ⟨es, h1, h2, h4⟩


/-- The source's `get` issues exactly the one request it builds. -/
theorem connGet_trace (conn : Conn) (fetch : Fetch) (path : String)
    (params : Option (List (String × String))) :
    (connGet conn fetch path params).2 = [builtRequest conn .GET path params] :=
  trelloRequest_trace ..

/-- A sub-collection cache hit returns the cached sequence with no fetch
and leaves the descriptor state unchanged. -/
theorem subListGet_hit (fetch : Fetch) (tid tpfx : String) (st : SubListState)
    (inst : Entity) (n : Nat) (l : List Entity)
    (h : slookup st.lists (subListKey inst) = some l) :
    subListGet fetch tid tpfx st inst n = (Except.ok l, st, [], n) := by
  unfold subListGet
  simp only [h]

/-- A sub-collection cache miss issues exactly one GET of
`ownerPrefix + ownerId + targetPrefix`, whatever the response. -/
theorem subListGet_miss_trace (fetch : Fetch) (tid tpfx : String)
    (st : SubListState) (inst : Entity) (n : Nat)
    (h : slookup st.lists (subListKey inst) = none) :
    (subListGet fetch tid tpfx st inst n).2.2.1 =
      [builtRequest inst.conn .GET (inst.pfx ++ inst.id ++ tpfx) none] := by
  unfold subListGet
  simp only [h]
  have htr := connGet_trace inst.conn fetch (inst.pfx ++ inst.id ++ tpfx) none
  rcases hh : connGet inst.conn fetch (inst.pfx ++ inst.id ++ tpfx) none with ⟨r, tr⟩
  rw [hh] at htr
  simp only at htr
  subst htr
  cases r with
  | error err => rfl
  | ok v =>
    cases v <;> try rfl
    case jarr ds =>
      cases he : subListElems tid tpfx inst.conn ds n with
      | none => simp only [he]
      | some p => obtain ⟨es, n2⟩ := p; simp only [he]

/-- A sub-collection cache miss with a 200 array response builds the
pre-hydrated element entities, caches them under this instance's key, and
returns them. -/
theorem subListGet_miss_success (fetch : Fetch) (tid tpfx : String)
    (st : SubListState) (inst : Entity) (n : Nat)
    (ds : List Jval) (es : List Entity) (n2 : Nat)
    (hmiss : slookup st.lists (subListKey inst) = none)
    (hresp : fetch (builtRequest inst.conn .GET (inst.pfx ++ inst.id ++ tpfx) none) =
      ⟨200, Jval.jarr ds⟩)
    (helems : subListElems tid tpfx inst.conn ds n = some (es, n2)) :
    subListGet fetch tid tpfx st inst n =
      (Except.ok es, ⟨(subListKey inst, es) :: st.lists⟩,
       [builtRequest inst.conn .GET (inst.pfx ++ inst.id ++ tpfx) none], n2) := by
  unfold subListGet
  simp only [hmiss]
  have hok : connGet inst.conn fetch (inst.pfx ++ inst.id ++ tpfx) none =
      (Except.ok (Jval.jarr ds),
       [builtRequest inst.conn .GET (inst.pfx ++ inst.id ++ tpfx) none]) := by
    unfold connGet trelloRequest
    dsimp only
    rw [hresp]
    simp
  rw [hok]
  simp only [helems]

/-- C4: sub-collection caching is keyed by owner instance: a second call on
the same owner instance returns the cached sequence with zero fetches,
while a call through a distinct owner instance carrying the same remote id
issues its own independent fetch. -/
theorem sublist_cache_per_instance (fetch fetch₂ fetch₃ : Fetch)
    (tid tpfx : String) (st : SubListState) (inst inst₂ : Entity)
    (n n₂ n₃ : Nat) (ds : List Jval) (es : List Entity) (n' : Nat)
    (hmiss : slookup st.lists (subListKey inst) = none)
    (hresp : fetch (builtRequest inst.conn .GET (inst.pfx ++ inst.id ++ tpfx) none) =
      ⟨200, Jval.jarr ds⟩)
    (helems : subListElems tid tpfx inst.conn ds n = some (es, n'))
    (hid : inst₂.id = inst.id) (hpy : inst₂.pyId ≠ inst.pyId)
    (hmiss₂ : slookup st.lists (subListKey inst₂) = none) :
    (subListGet fetch tid tpfx st inst n).2.2.1 =
      [builtRequest inst.conn .GET (inst.pfx ++ inst.id ++ tpfx) none] ∧
    (subListGet fetch tid tpfx st inst n).1 = Except.ok es ∧
    (subListGet fetch₂ tid tpfx (subListGet fetch tid tpfx st inst n).2.1 inst n₂).1 =
      Except.ok es ∧
    (subListGet fetch₂ tid tpfx (subListGet fetch tid tpfx st inst n).2.1 inst n₂).2.2.1 =
      [] ∧
    (subListGet fetch₃ tid tpfx (subListGet fetch tid tpfx st inst n).2.1 inst₂ n₃).2.2.1 =
      [builtRequest inst₂.conn .GET (inst₂.pfx ++ inst₂.id ++ tpfx) none] := by
  have h1 := subListGet_miss_success fetch tid tpfx st inst n ds es n' hmiss hresp helems
  have hshit : slookup ((subListGet fetch tid tpfx st inst n).2.1).lists
      (subListKey inst) = some es := by
    rw [h1]
    simp [slookup]
  have hne : subListKey inst ≠ subListKey inst₂ := by
    intro hcontra
    exact hpy (congrArg Prod.snd hcontra).symm
  have hsmiss : slookup ((subListGet fetch tid tpfx st inst n).2.1).lists
      (subListKey inst₂) = none := by
    rw [h1]
    show slookup ((subListKey inst, es) :: st.lists) (subListKey inst₂) = none
    unfold slookup
    rw [if_neg hne]
    exact hmiss₂
  refine ⟨by rw [h1], by rw [h1], ?_, ?_, ?_⟩
  · rw [subListGet_hit fetch₂ tid tpfx _ inst n₂ es hshit]
  · rw [subListGet_hit fetch₂ tid tpfx _ inst n₂ es hshit]
  · exact subListGet_miss_trace fetch₃ tid tpfx _ inst₂ n₃ hsmiss

/-- C4 (witness): a board's cards read twice through one instance and once
through a second instance with the same remote id. -/
theorem sublist_cache_per_instance_witness :
    (subListGet boardFetch "Card" "/cards/" ⟨[]⟩ testBoard 0).2.2.1 =
      [builtRequest testConn .GET "/boards/b1/cards/" none] ∧
    (subListGet boardFetch "Card" "/cards/"
        (subListGet boardFetch "Card" "/cards/" ⟨[]⟩ testBoard 0).2.1 testBoard 3).2.2.1 =
      [] ∧
    (subListGet boardFetch "Card" "/cards/"
        (subListGet boardFetch "Card" "/cards/" ⟨[]⟩ testBoard 0).2.1 testBoard₂ 3).2.2.1 =
      [builtRequest testConn .GET "/boards/b1/cards/" none] := by
  have h := sublist_cache_per_instance boardFetch boardFetch boardFetch "Card" "/cards/"
    ⟨[]⟩ testBoard testBoard₂ 0 3 3 [Jval.jobj [("id", Jval.jstr "c1")]]
    [mkEntity "Card" "/cards/" testConn "c1" (some (Jval.jobj [("id", Jval.jstr "c1")])) 0] 1
    rfl rfl rfl rfl (by decide) rfl
  exact ⟨h.1, h.2.2.2.1, h.2.2.2.2⟩

/-- The source's `post` issues exactly the one request it builds. -/
theorem connPost_trace (conn : Conn) (fetch : Fetch) (path : String)
    (params : Option (List (String × String))) (body : Option Jval) :
    (connPost conn fetch path params body).2 = [builtRequest conn .POST path params] :=
  trelloRequest_trace ..

/-- C7: `set_label(color)`: if the lowercased color is one of the six valid
label colors, exactly one POST is issued to `<prefix><id>/labels` carrying
the lowercased color as the `value` parameter; for any other color the call
fails with the invalid-argument error and issues no request at all. -/
theorem set_label_valid_or_rejected (fetch : Fetch) (e : Entity) (color : String) :
    (validLabelColors.contains (pyLower color) = true →
      (set_label fetch e color).2 =
        [builtRequest e.conn .POST (e.pfx ++ e.id ++ "/labels")
          (some [("value", pyLower color)])] ∧
      (builtRequest e.conn .POST (e.pfx ++ e.id ++ "/labels")
        (some [("value", pyLower color)])).method = HMethod.POST ∧
      plookup (builtRequest e.conn .POST (e.pfx ++ e.id ++ "/labels")
        (some [("value", pyLower color)])).params "value" = some (pyLower color) ∧
      (strStartsWith (e.pfx ++ e.id ++ "/labels") "/" = true →
        (builtRequest e.conn .POST (e.pfx ++ e.id ++ "/labels")
          (some [("value", pyLower color)])).path = e.pfx ++ e.id ++ "/labels")) ∧
    (validLabelColors.contains (pyLower color) = false →
      (set_label fetch e color).1 = Except.error TErr.invalidArgument ∧
      (set_label fetch e color).2 = []) := by
  constructor
  · intro hvalid
    refine ⟨?_, rfl, ?_, ?_⟩
    · unfold set_label
      simp only [hvalid, if_true]
      have htr := connPost_trace e.conn fetch (e.pfx ++ e.id ++ "/labels")
        (some [("value", pyLower color)]) none
      rcases hh : connPost e.conn fetch (e.pfx ++ e.id ++ "/labels")
        (some [("value", pyLower color)]) none with ⟨r, tr⟩
      rw [hh] at htr
      simp only at htr
      subst htr
      cases r <;> rfl
    · show plookup (pinsert (pinsert [("value", pyLower color)] "key" e.conn.key)
        "token" e.conn.token) "value" = some (pyLower color)
      rw [plookup_pinsert_ne _ _ _ _ (by decide), plookup_pinsert_ne _ _ _ _ (by decide)]
      simp [plookup]
    · intro hsw
      simp [builtRequest, hsw]
  · intro hinvalid
    unfold set_label
    simp only [hinvalid]
    exact ⟨rfl, rfl⟩

/-- C7 (witness): `set_label("PURPLE")` issues exactly one POST with value
`"purple"`; `set_label("teal")` fails and issues nothing. -/
theorem set_label_witness :
    (set_label okFetch testCard "PURPLE").2 =
      [builtRequest testConn .POST "/cards/abc123/labels" (some [("value", "purple")])] ∧
    (set_label okFetch testCard "teal").1 = Except.error TErr.invalidArgument ∧
    (set_label okFetch testCard "teal").2 = [] := by
  have h1 := (set_label_valid_or_rejected okFetch testCard "PURPLE").1 (by decide)
  have h2 := (set_label_valid_or_rejected okFetch testCard "teal").2 (by decide)
  refine ⟨?_, h2.1, h2.2⟩
  rw [h1.1]
  rfl

end Trollop
